import Mathlib

/-!
Verification development for the BusTub buffer pool manager
(`src/buffer/buffer_pool_manager.cpp`) and its LRU replacer
(`src/buffer/lru_replacer.cpp`).

The C++ state is embedded shallowly:
* a `Frame` models the `Page` fields the BPM touches (`data_` abstracted to
  one natural number, `pin_count_`, `is_dirty_`);
* the page table (`std::unordered_map<page_id_t, frame_id_t>`) is an
  association list with unique keys; iteration order (`std::find_if`) is
  modelled as list order;
* the free list and the replacer's internal list are Lean lists with the
  same front/back orientation as the `std::list`s in the source;
* `DiskManager::WritePage` calls are logged in `events` (page id and the
  data written) and mirrored into a `disk` association list;
  `DiskManager::AllocatePage` is a counter, as in the in-memory disk manager.
-/

namespace BusTub

/-- A frame slot: the `Page` fields used by the buffer pool manager.
The page image `data_` is abstracted to a single natural number. -/
structure Frame where
  data : Nat
  pin_count : Nat
  is_dirty : Bool
deriving Repr, DecidableEq

/-- Modelled from the spec: `Page::ResetMemory` is not under `src/`.
The spec's eviction step says "clear `data` and reset dirty", and its
new-page step says "zero the data buffer, set `dirty := false`". -/
def resetMemory (f : Frame) : Frame := { f with data := 0, is_dirty := false }

/-- Association-list lookup (`unordered_map::find`): first entry with the key. -/
def lookupA : List (Nat × Nat) → Nat → Option Nat
  | [], _ => none
  | (k, v) :: t, k' => if k = k' then some v else lookupA t k'

/-- Association-list insert-or-assign (`unordered_map::operator[] =`):
updates the existing entry in place, otherwise appends. -/
def insertA : List (Nat × Nat) → Nat → Nat → List (Nat × Nat)
  | [], k, v => [(k, v)]
  | (k0, v0) :: t, k, v =>
      if k0 = k then (k, v) :: t else (k0, v0) :: insertA t k v

/-- Association-list erase (`unordered_map::erase` of a found iterator):
removes the first entry with the key. -/
def eraseA : List (Nat × Nat) → Nat → List (Nat × Nat)
  | [], _ => []
  | (k0, v0) :: t, k => if k0 = k then t else (k0, v0) :: eraseA t k

/-- The `std::find_if` inverse lookup used on eviction: the first page-table
entry whose mapped frame is `fid`. -/
def findByFrame : List (Nat × Nat) → Nat → Option Nat
  | [], _ => none
  | (k, v) :: t, fid => if v = fid then some k else findByFrame t fid

/-- `LRUReplacer::Victim`: pop the front of the list, if any. -/
def lruVictim : List Nat → Option (Nat × List Nat)
  | [] => none
  | f :: t => some (f, t)

/-- `LRUReplacer::Pin`: erase the first occurrence of `fid`, if present. -/
def lruPin (pages : List Nat) (fid : Nat) : List Nat := pages.erase fid

/-- `LRUReplacer::Unpin` with capacity `cap` (`num_pages`): no-op when `fid`
is already tracked; otherwise drop the front when at capacity, then append. -/
def lruUnpin (cap : Nat) (pages : List Nat) (fid : Nat) : List Nat :=
  if fid ∈ pages then pages
  else (if cap ≤ pages.length then pages.tail else pages) ++ [fid]

/-- The buffer pool manager state. -/
structure BPM where
  pool_size : Nat
  frames : Nat → Frame
  page_table : List (Nat × Nat)
  free_list : List Nat
  replacer : List Nat
  next_page_id : Nat
  disk : List (Nat × Nat)
  events : List (Nat × Nat)

/-- Point update of the frame array. -/
def updF (fs : Nat → Frame) (i : Nat) (f : Frame) : Nat → Frame :=
  fun j => if j = i then f else fs j

/-- `DiskManager::WritePage`: log the write and update the disk image. -/
def logWrite (st : BPM) (pid data : Nat) : BPM :=
  { st with events := st.events ++ [(pid, data)],
            disk := insertA st.disk pid data }

/-- `DiskManager::ReadPage`: the disk image of `pid` (0 if never written). -/
def diskRead (st : BPM) (pid : Nat) : Nat := (lookupA st.disk pid).getD 0

/-- The shared install tail of `FetchPageImpl` (source lines 71–83):
read the page from disk into the frame, add the `pid → fid` mapping,
pin `fid` in the replacer, and raise a non-positive pin count to 1. -/
def fetchInstall (st : BPM) (pid fid : Nat) : BPM × Option Nat :=
  ({ st with
      frames := updF st.frames fid
        (if (st.frames fid).pin_count ≤ 0 then
           { st.frames fid with data := diskRead st pid, pin_count := 1 }
         else
           { st.frames fid with data := diskRead st pid }),
      page_table := insertA st.page_table pid fid,
      replacer := lruPin st.replacer fid }, some fid)

/-- The eviction part of `FetchPageImpl` (source lines 58–70) followed by
the install tail: look up the victim's page id, write back if dirty, erase
the old mapping and clear the frame. When `findByFrame` yields nothing the
C++ dereferences an end iterator (undefined behaviour); modelled as
skipping the write-back and erase. -/
def fetchEvict (st : BPM) (pid fid : Nat) : BPM × Option Nat :=
  match findByFrame st.page_table fid with
  | some old_pid =>
      let st2 : BPM :=
        if (st.frames fid).is_dirty then logWrite st old_pid (st.frames fid).data
        else st
      fetchInstall
        { st2 with page_table := eraseA st2.page_table old_pid,
                   frames := updF st2.frames fid (resetMemory (st2.frames fid)) }
        pid fid
  | none => fetchInstall st pid fid

/-- `BufferPoolManager::FetchPageImpl`. Returns the fetched frame id, or
`none` where the source returns `nullptr`. On the hit path the source only
pins the frame in the replacer and returns; it does not touch `pin_count_`. -/
def fetchPage (st : BPM) (pid : Nat) : BPM × Option Nat :=
  match lookupA st.page_table pid with
  | some fid => ({ st with replacer := lruPin st.replacer fid }, some fid)
  | none =>
    match st.free_list with
    | fid :: rest => fetchInstall { st with free_list := rest } pid fid
    | [] =>
      match lruVictim st.replacer with
      | none => (st, none)
      | some (fid, rest) => fetchEvict { st with replacer := rest } pid fid

/-- `BufferPoolManager::UnpinPageImpl`. Note that the source assigns
`is_dirty_ = is_dirty` unconditionally after the pin-count branch, and
returns `old_pin_count > 0`. -/
def unpinPage (st : BPM) (pid : Nat) (d : Bool) : BPM × Bool :=
  match lookupA st.page_table pid with
  | none => (st, false)
  | some fid =>
      let old := (st.frames fid).pin_count
      let st1 : BPM :=
        if old = 1 then
          { st with frames := updF st.frames fid { st.frames fid with pin_count := 0 },
                    replacer := lruUnpin st.pool_size st.replacer fid }
        else if old > 1 then
          { st with frames := updF st.frames fid { st.frames fid with pin_count := old - 1 } }
        else st
      ({ st1 with frames := updF st1.frames fid { st1.frames fid with is_dirty := d } },
       decide (old > 0))

/-- `BufferPoolManager::FlushPageImpl`: write the frame's data for any
resident page, regardless of the dirty flag, which is left unchanged. -/
def flushPage (st : BPM) (pid : Nat) : BPM × Bool :=
  match lookupA st.page_table pid with
  | some fid => (logWrite st pid (st.frames fid).data, true)
  | none => (st, false)

/-- The tail of `NewPageImpl` after frame selection: conditional write-back
(the source resets the data only inside the dirty branch), then add the new
mapping — the source never erases the evicted page's entry — and bump the
pin count. `old_pid = none` models the free-list branch, where the C++
`old_page_id` is uninitialized (a dirty write there is undefined behaviour,
modelled as dropped). -/
def newFinish (st : BPM) (pid fid : Nat) (old_pid : Option Nat) : BPM × Option (Nat × Nat) :=
  let st1 : BPM :=
    if (st.frames fid).is_dirty then
      let stw : BPM :=
        match old_pid with
        | some op => logWrite st op (st.frames fid).data
        | none => st
      { stw with frames := updF stw.frames fid (resetMemory (stw.frames fid)) }
    else st
  ({ st1 with page_table := insertA st1.page_table pid fid,
              frames := updF st1.frames fid
                { st1.frames fid with pin_count := (st1.frames fid).pin_count + 1 } },
   some (pid, fid))

/-- `BufferPoolManager::NewPageImpl`. Returns the allocated page id and the
frame id, or `none` where the source returns `nullptr`. -/
def newPage (st : BPM) : BPM × Option (Nat × Nat) :=
  if st.pool_size ≤ st.page_table.length ∧
     ∀ pr ∈ st.page_table, (st.frames pr.2).pin_count ≠ 0 then
    (st, none)
  else
    let pid := st.next_page_id
    let st1 : BPM := { st with next_page_id := pid + 1 }
    match st1.free_list with
    | fid :: rest => newFinish { st1 with free_list := rest } pid fid none
    | [] =>
      match lruVictim st1.replacer with
      | some (fid, rest) =>
          newFinish { st1 with replacer := rest } pid fid
            (findByFrame st1.page_table fid)
      | none =>
          -- the source's comment says Victim "must be true" here; when it
          -- is not, the C++ continues with an uninitialized frame id
          -- (undefined behaviour), modelled as failure
          (st1, none)

/-- `BufferPoolManager::DeletePageImpl`. `DiskManager::DeallocatePage` has
no buffer-pool-state effect and is not logged. The source does not remove
the frame from the replacer. -/
def deletePage (st : BPM) (pid : Nat) : BPM × Bool :=
  match lookupA st.page_table pid with
  | none => (st, true)
  | some fid =>
      if 0 < (st.frames fid).pin_count then (st, false)
      else
        ({ st with page_table := eraseA st.page_table pid,
                   frames := updF st.frames fid (resetMemory (st.frames fid)),
                   free_list := st.free_list ++ [fid] }, true)

/-- `BufferPoolManager::FlushAllPagesImpl`: flush every resident page, in
page-table iteration order (`FlushPage` does not modify the page table). -/
def flushAllPages (st : BPM) : BPM :=
  (st.page_table.map Prod.fst).foldl (fun s p => (flushPage s p).1) st

/-- The buffer pool manager's external operations. -/
inductive Op where
  | fetch (pid : Nat)
  | unpin (pid : Nat) (dirty : Bool)
  | newP
  | deleteP (pid : Nat)
  | flush (pid : Nat)
  | flushAll
deriving Repr, DecidableEq

/-- One operation's effect on the state. -/
def step (st : BPM) : Op → BPM
  | .fetch pid => (fetchPage st pid).1
  | .unpin pid d => (unpinPage st pid d).1
  | .newP => (newPage st).1
  | .deleteP pid => (deletePage st pid).1
  | .flush pid => (flushPage st pid).1
  | .flushAll => flushAllPages st

/-- The constructor's state: empty page table, every frame on the free
list in index order, empty replacer, zeroed frames. -/
def initBPM (n : Nat) : BPM :=
  { pool_size := n, frames := fun _ => ⟨0, 0, false⟩, page_table := [],
    free_list := List.range n, replacer := [], next_page_id := 0,
    disk := [], events := [] }

/-- Run a sequence of operations. -/
def run (st : BPM) : List Op → BPM
  | [] => st
  | op :: ops => run (step st op) ops

/-- An operation that is neither a flush nor an unpin with `dirty_flag = true`. -/
def opClean : Op → Bool
  | .unpin _ d => !d
  | .flush _ => false
  | .flushAll => false
  | _ => true

/-- No `WritePage` has been issued and every frame's dirty flag is clear. -/
def allClean (st : BPM) : Prop :=
  st.events = [] ∧ ∀ i, (st.frames i).is_dirty = false

/-- Page `p` is never passed to `UnpinPage` with `dirty_flag = true` in `ops`. -/
def neverUnpinnedDirty (p : Nat) (ops : List Op) : Bool :=
  ops.all fun op =>
    match op with
    | Op.unpin q d => if q = p then !d else true
    | _ => true

/-- `ops` contains no `FlushPage` and no `FlushAllPages` call. -/
def noFlushOps (ops : List Op) : Bool :=
  ops.all fun op =>
    match op with
    | Op.flush _ => false
    | Op.flushAll => false
    | _ => true

section Lemmas

/-- A key absent from an association list's keys looks up to `none`. -/
theorem lookupA_eq_none_of_not_mem (l : List (Nat × Nat)) (k : Nat)
    (h : k ∉ l.map Prod.fst) : lookupA l k = none := by
  induction l with
  | nil => rfl
  | cons p t ih =>
      obtain ⟨k0, v0⟩ := p
      simp only [List.map_cons, List.mem_cons] at h
      push_neg at h
      simp only [lookupA]
      rw [if_neg (fun heq => h.1 heq.symm)]
      exact ih h.2

/-- Erasing a key from a duplicate-free association list removes it. -/
theorem lookupA_eraseA_self (l : List (Nat × Nat)) (k : Nat)
    (h : (l.map Prod.fst).Nodup) : lookupA (eraseA l k) k = none := by
  induction l with
  | nil => rfl
  | cons p t ih =>
      obtain ⟨k0, v0⟩ := p
      simp only [List.map_cons, List.nodup_cons] at h
      simp only [eraseA]
      by_cases hk : k0 = k
      · rw [if_pos hk]
        subst hk
        exact lookupA_eq_none_of_not_mem t k0 h.1
      · rw [if_neg hk]
        simp only [lookupA]
        rw [if_neg hk]
        exact ih h.2

/-- The fetch install tail touches no dirty flag and issues no write. -/
theorem fetchInstall_clean (st : BPM) (pid fid : Nat) (h : allClean st) :
    allClean (fetchInstall st pid fid).1 := by
  obtain ⟨he, hd⟩ := h
  refine ⟨he, fun i => ?_⟩
  simp only [fetchInstall, updF]
  split
  · split
    · exact hd fid
    · exact hd fid
  · exact hd i

/-- The new-page install tail preserves cleanliness. -/
theorem newFinish_clean (st : BPM) (pid fid : Nat) (old_pid : Option Nat)
    (h : allClean st) : allClean (newFinish st pid fid old_pid).1 := by
  obtain ⟨he, hd⟩ := h
  simp only [newFinish, hd fid]
  refine ⟨he, fun i => ?_⟩
  simp only [updF]
  split
  · exact hd fid
  · exact hd i

/-- The fetch eviction path preserves cleanliness. -/
theorem fetchEvict_clean (st : BPM) (pid fid : Nat) (h : allClean st) :
    allClean (fetchEvict st pid fid).1 := by
  obtain ⟨he, hd⟩ := h
  unfold fetchEvict
  split
  · simp only [hd fid]
    apply fetchInstall_clean
    refine ⟨he, fun i => ?_⟩
    simp only [updF]
    split
    · rfl
    · exact hd i
  · exact fetchInstall_clean _ _ _ ⟨he, hd⟩

/-- A clean, flush-free operation preserves cleanliness. -/
theorem step_clean (st : BPM) (op : Op) (h : allClean st)
    (hop : opClean op = true) : allClean (step st op) := by
  obtain ⟨he, hd⟩ := h
  cases op with
  | fetch pid =>
      simp only [step, fetchPage]
      split
      · exact ⟨he, hd⟩
      · split
        · exact fetchInstall_clean _ _ _ ⟨he, hd⟩
        · split
          · exact ⟨he, hd⟩
          · exact fetchEvict_clean _ _ _ ⟨he, hd⟩
  | unpin pid d =>
      have hd0 : d = false := by
        cases d
        · rfl
        · simp [opClean] at hop
      subst hd0
      simp only [step, unpinPage]
      split
      · exact ⟨he, hd⟩
      · next fid _ =>
          refine ⟨?_, fun i => ?_⟩
          · split
            · exact he
            · split
              · exact he
              · exact he
          · simp only [updF]
            split
            · rfl
            · split
              · simp only [updF]
                split
                · exact hd fid
                · exact hd i
              · split
                · simp only [updF]
                  split
                  · exact hd fid
                  · exact hd i
                · exact hd i
  | newP =>
      simp only [step, newPage]
      split
      · exact ⟨he, hd⟩
      · split
        · exact newFinish_clean _ _ _ _ ⟨he, hd⟩
        · split
          · exact newFinish_clean _ _ _ _ ⟨he, hd⟩
          · exact ⟨he, hd⟩
  | deleteP pid =>
      simp only [step, deletePage]
      split
      · exact ⟨he, hd⟩
      · split
        · exact ⟨he, hd⟩
        · refine ⟨he, fun i => ?_⟩
          simp only [updF]
          split
          · rfl
          · exact hd i
  | flush pid => simp [opClean] at hop
  | flushAll => simp [opClean] at hop

/-- Cleanliness is preserved along any clean, flush-free run. -/
theorem run_clean (ops : List Op) (st : BPM) (h : allClean st)
    (hops : ∀ op ∈ ops, opClean op = true) : allClean (run st ops) := by
  induction ops generalizing st with
  | nil => exact h
  | cons op ops ih =>
      simp only [run]
      exact ih (step st op) (step_clean st op h (hops op (by simp)))
        (fun o ho => hops o (by simp [ho]))

end Lemmas

section Claims

/-- C1: the claim says that fetching a resident page increments its frame's
pin count by exactly one (1 becomes 2). Evaluating the code at the failing
input: after `NewPage` (page 0 resident in frame 0 with `pin_count = 1`),
`FetchPage(0)` takes the hit path, returns frame 0, but leaves `pin_count`
at 1 — the hit path never increments it. -/
theorem c1_fetch_hit_does_not_increment_pin :
    lookupA (run (initBPM 1) [Op.newP]).page_table 0 = some 0 ∧
    ((run (initBPM 1) [Op.newP]).frames 0).pin_count = 1 ∧
    (fetchPage (run (initBPM 1) [Op.newP]) 0).2 = some 0 ∧
    ((fetchPage (run (initBPM 1) [Op.newP]) 0).1.frames 0).pin_count = 1 := by
  decide

/-- C2: the claim says `UnpinPage(page_id, dirty_flag)` ORs `dirty_flag`
into the frame's dirty flag. Evaluating the code at the failing input: after
the 8-operation trace below (pool size 2), page 3 is resident in frame 0
with `pin_count = 1` and `is_dirty = true`; `UnpinPage(3, false)` performs a
real decrement (returns true) yet leaves the dirty flag `false`, clearing
the previously set bit — the source assigns `is_dirty_ = is_dirty` instead
of ORing. -/
theorem c2_unpin_overwrites_dirty :
    lookupA (run (initBPM 2) [Op.newP, Op.newP, Op.unpin 0 false, Op.deleteP 0,
      Op.newP, Op.unpin 1 false, Op.newP, Op.unpin 3 true]).page_table 3 = some 0 ∧
    ((run (initBPM 2) [Op.newP, Op.newP, Op.unpin 0 false, Op.deleteP 0,
      Op.newP, Op.unpin 1 false, Op.newP, Op.unpin 3 true]).frames 0).pin_count = 1 ∧
    ((run (initBPM 2) [Op.newP, Op.newP, Op.unpin 0 false, Op.deleteP 0,
      Op.newP, Op.unpin 1 false, Op.newP, Op.unpin 3 true]).frames 0).is_dirty = true ∧
    (unpinPage (run (initBPM 2) [Op.newP, Op.newP, Op.unpin 0 false, Op.deleteP 0,
      Op.newP, Op.unpin 1 false, Op.newP, Op.unpin 3 true]) 3 false).2 = true ∧
    ((unpinPage (run (initBPM 2) [Op.newP, Op.newP, Op.unpin 0 false, Op.deleteP 0,
      Op.newP, Op.unpin 1 false, Op.newP, Op.unpin 3 true]) 3 false).1.frames 0).is_dirty
      = false := by
  decide

/-- C3: the claim says every frame is in at most one of the free list and
the replacer. Evaluating the code at the failing input: after `NewPage`,
`UnpinPage(0, false)`, `DeletePage(0)` on a pool of size 1, frame 0 sits in
the free list and in the replacer at once — `DeletePageImpl` pushes the
frame onto the free list without removing it from the replacer. -/
theorem c3_delete_leaves_frame_in_replacer :
    (deletePage (run (initBPM 1) [Op.newP, Op.unpin 0 false]) 0).2 = true ∧
    0 ∈ (run (initBPM 1) [Op.newP, Op.unpin 0 false, Op.deleteP 0]).free_list ∧
    0 ∈ (run (initBPM 1) [Op.newP, Op.unpin 0 false, Op.deleteP 0]).replacer := by
  decide

/-- C4: the claim says an unpin of a resident page whose `pin_count` is
already 0 returns false and mutates nothing. Evaluating the code at the
failing input: after `NewPage`, `UnpinPage(0, true)`, page 0 is resident
with `pin_count = 0` and `is_dirty = true`; `UnpinPage(0, false)` returns
false but still overwrites the dirty flag to `false` — the unconditional
`is_dirty_ = is_dirty` assignment runs even on the underflow path. -/
theorem c4_unpin_underflow_mutates_dirty :
    lookupA (run (initBPM 1) [Op.newP, Op.unpin 0 true]).page_table 0 = some 0 ∧
    ((run (initBPM 1) [Op.newP, Op.unpin 0 true]).frames 0).pin_count = 0 ∧
    ((run (initBPM 1) [Op.newP, Op.unpin 0 true]).frames 0).is_dirty = true ∧
    (unpinPage (run (initBPM 1) [Op.newP, Op.unpin 0 true]) 0 false).2 = false ∧
    ((unpinPage (run (initBPM 1) [Op.newP, Op.unpin 0 true]) 0 false).1.frames 0).is_dirty
      = false := by
  decide

/-- C5: the claim says a non-resident fetch succeeds whenever some resident
frame has `pin_count = 0`. Evaluating the code at the failing input: after
`NewPage`, `UnpinPage(0, false)`, `FetchPage(0)` on a pool of size 1, page 0
is resident in frame 0 with `pin_count = 0`, yet `FetchPage(1)` returns
null — the hit path removed frame 0 from the replacer without raising its
pin count, so no victim is obtainable. -/
theorem c5_fetch_fails_despite_unpinned_frame :
    lookupA (run (initBPM 1) [Op.newP, Op.unpin 0 false, Op.fetch 0]).page_table 0
      = some 0 ∧
    ((run (initBPM 1) [Op.newP, Op.unpin 0 false, Op.fetch 0]).frames 0).pin_count = 0 ∧
    (run (initBPM 1) [Op.newP, Op.unpin 0 false, Op.fetch 0]).free_list = [] ∧
    (fetchPage (run (initBPM 1) [Op.newP, Op.unpin 0 false, Op.fetch 0]) 1).2 = none := by
  decide

/-- C6: the claim says `|page_table| + |free_list| = N` after every
operation. Evaluating the code at the failing input: after `NewPage`,
`UnpinPage(0, false)`, `NewPage` on a pool of size 1, the page table holds
2 entries and the free list 0, so the sum is 2 ≠ 1 — `NewPageImpl`'s victim
path never erases the evicted page's page-table entry. -/
theorem c6_newpage_breaks_size_invariant :
    (run (initBPM 1) [Op.newP, Op.unpin 0 false, Op.newP]).page_table.length = 2 ∧
    (run (initBPM 1) [Op.newP, Op.unpin 0 false, Op.newP]).free_list.length = 0 ∧
    (run (initBPM 1) [Op.newP, Op.unpin 0 false, Op.newP]).pool_size = 1 := by
  decide

/-- C7 counterexample, in two parts, one per narrowing the amendment makes.
Part 1: after `NewPage` (page 0, never unpinned at all), `FlushPage(0)`
issues `WritePage(0, …)` — `FlushPageImpl` writes any resident page
unconditionally, so the "not via FlushPage or FlushAllPages" part fails.
Part 2: even flush-free, per-page attribution fails: in
`NewPage; Unpin(0,false); NewPage; Unpin(1,true); FetchPage(5)` page 0 is
never unpinned dirty and no flush occurs, yet the final fetch's eviction
issues `WritePage(0, …)` — `NewPageImpl` left the stale entry `0 → 0` in
the page table, and the eviction write-back of the frame dirtied under
page 1 resolves the victim's id to page 0 through that stale entry. -/
theorem c7_never_dirtied_page_written :
    (neverUnpinnedDirty 0 [Op.newP, Op.flush 0] = true ∧
     (run (initBPM 1) [Op.newP, Op.flush 0]).events = [(0, 0)]) ∧
    (neverUnpinnedDirty 0
        [Op.newP, Op.unpin 0 false, Op.newP, Op.unpin 1 true, Op.fetch 5] = true ∧
     noFlushOps [Op.newP, Op.unpin 0 false, Op.newP, Op.unpin 1 true, Op.fetch 5]
        = true ∧
     (run (initBPM 1)
        [Op.newP, Op.unpin 0 false, Op.newP, Op.unpin 1 true, Op.fetch 5]).events
        = [(0, 0)]) := by
  decide

/-- C7 (amended): over any operation sequence in which every `UnpinPage`
call has `dirty_flag = false` and no `FlushPage`/`FlushAllPages` occurs,
the buffer pool manager issues no `WritePage` at all: every frame's dirty
flag stays false, so no eviction ever writes back. Both narrowings of the
original claim are forced by the counterexample: flushes write
unconditionally, and a single dirty unpin of one page can produce a
`WritePage` under another, never-dirtied page's id. -/
theorem c7_no_dirty_unpin_no_writes (n : Nat) (ops : List Op)
    (h : ∀ op ∈ ops, opClean op = true) :
    (run (initBPM n) ops).events = [] :=
  (run_clean ops (initBPM n) ⟨rfl, fun _ => rfl⟩ h).1

/-- Witness for the amended C7 theorem at a concrete clean sequence. -/
theorem c7_no_dirty_unpin_no_writes_witness :
    (∀ op ∈ [Op.newP, Op.unpin 0 false, Op.fetch 0, Op.deleteP 0],
      opClean op = true) ∧
    (run (initBPM 1) [Op.newP, Op.unpin 0 false, Op.fetch 0, Op.deleteP 0]).events
      = [] :=
  ⟨by decide,
   c7_no_dirty_unpin_no_writes 1 [Op.newP, Op.unpin 0 false, Op.fetch 0, Op.deleteP 0]
     (by decide)⟩

/-- C8: `FlushPage(page_id)` on a resident page issues exactly one
`WritePage` carrying the frame's current data, changes nothing else (in
particular the dirty flag is not cleared), and returns true; on a
non-resident page it issues no write and returns false. -/
theorem c8_flushPage_spec (st : BPM) (pid : Nat) :
    (∀ fid, lookupA st.page_table pid = some fid →
        flushPage st pid =
          ({ st with events := st.events ++ [(pid, (st.frames fid).data)],
                     disk := insertA st.disk pid (st.frames fid).data }, true)) ∧
    (lookupA st.page_table pid = none → flushPage st pid = (st, false)) := by
  constructor
  · intro fid h
    unfold flushPage
    rw [h]
    rfl
  · intro h
    unfold flushPage
    rw [h]

/-- Witness for the C8 theorem at a concrete resident state. -/
theorem c8_flushPage_spec_witness :
    lookupA (run (initBPM 1) [Op.newP]).page_table 0 = some 0 ∧
    flushPage (run (initBPM 1) [Op.newP]) 0 =
      ({ run (initBPM 1) [Op.newP] with
           events := (run (initBPM 1) [Op.newP]).events
             ++ [(0, ((run (initBPM 1) [Op.newP]).frames 0).data)],
           disk := insertA (run (initBPM 1) [Op.newP]).disk 0
             ((run (initBPM 1) [Op.newP]).frames 0).data }, true) :=
  ⟨by decide, (c8_flushPage_spec (run (initBPM 1) [Op.newP]) 0).1 0 (by decide)⟩

/-- C9: `LRUReplacer::Unpin` is a no-op on an already-tracked frame (no
recency refresh), hence idempotent; on an untracked frame with the list at
capacity it drops the front and appends at the back; and starting from at
most `cap` entries (with `cap` positive) it never exceeds `cap` entries. -/
theorem c9_lruUnpin_spec (cap : Nat) (pages : List Nat) (fid : Nat) :
    (fid ∈ pages → lruUnpin cap pages fid = pages) ∧
    (fid ∉ pages → cap ≤ pages.length → lruUnpin cap pages fid = pages.tail ++ [fid]) ∧
    (0 < cap → pages.length ≤ cap → (lruUnpin cap pages fid).length ≤ cap) ∧
    lruUnpin cap (lruUnpin cap pages fid) fid = lruUnpin cap pages fid := by
  refine ⟨?_, ?_, ?_, ?_⟩
  · intro h
    simp only [lruUnpin, if_pos h]
  · intro h hc
    simp only [lruUnpin, if_neg h, if_pos hc]
  · intro hcap hlen
    by_cases h : fid ∈ pages
    · simpa [lruUnpin, if_pos h] using hlen
    · simp only [lruUnpin, if_neg h]
      by_cases hc : cap ≤ pages.length
      · rw [if_pos hc]
        have hlen2 : pages.length = cap := le_antisymm hlen hc
        simp only [List.length_append, List.length_tail, List.length_cons,
          List.length_nil]
        omega
      · rw [if_neg hc]
        simp only [List.length_append, List.length_cons, List.length_nil]
        omega
  · have hmem : fid ∈ lruUnpin cap pages fid := by
      by_cases h : fid ∈ pages
      · simpa [lruUnpin, if_pos h] using h
      · simp [lruUnpin, if_neg h]
    simp only [lruUnpin] at hmem ⊢
    rw [if_pos hmem]

/-- Witness for the C9 theorem: a drop-front-and-append at capacity, and a
bounded result. -/
theorem c9_lruUnpin_spec_witness :
    (9 : Nat) ∉ [7, 8] ∧ 2 ≤ ([7, 8] : List Nat).length ∧
    lruUnpin 2 [7, 8] 9 = [8, 9] :=
  ⟨by decide, by decide, (c9_lruUnpin_spec 2 [7, 8] 9).2.1 (by decide) (by decide)⟩

/-- C10: deleting a resident page with `pin_count = 0` returns true and
removes its residency; a second delete of the same page finds it
non-resident and returns true with no further buffer-pool state change.
The page table is assumed duplicate-free in its keys, as the spec's data
model requires. -/
theorem c10_delete_idempotent (st : BPM) (pid fid : Nat)
    (hres : lookupA st.page_table pid = some fid)
    (hpin : (st.frames fid).pin_count = 0)
    (hnd : (st.page_table.map Prod.fst).Nodup) :
    (deletePage st pid).2 = true ∧
    lookupA (deletePage st pid).1.page_table pid = none ∧
    deletePage (deletePage st pid).1 pid = ((deletePage st pid).1, true) := by
  have h1 : deletePage st pid =
      ({ st with page_table := eraseA st.page_table pid,
                 frames := updF st.frames fid (resetMemory (st.frames fid)),
                 free_list := st.free_list ++ [fid] }, true) := by
    unfold deletePage
    rw [hres]
    simp [hpin]
  have h2 : lookupA (deletePage st pid).1.page_table pid = none := by
    rw [h1]
    exact lookupA_eraseA_self st.page_table pid hnd
  have h3 : ∀ s : BPM, lookupA s.page_table pid = none → deletePage s pid = (s, true) := by
    intro s hs
    unfold deletePage
    rw [hs]
  exact ⟨by rw [h1], h2, h3 _ h2⟩

/-- Witness for the C10 theorem at a concrete unpinned resident state. -/
theorem c10_delete_idempotent_witness :
    lookupA (run (initBPM 1) [Op.newP, Op.unpin 0 false]).page_table 0 = some 0 ∧
    ((run (initBPM 1) [Op.newP, Op.unpin 0 false]).frames 0).pin_count = 0 ∧
    ((run (initBPM 1) [Op.newP, Op.unpin 0 false]).page_table.map Prod.fst).Nodup ∧
    ((deletePage (run (initBPM 1) [Op.newP, Op.unpin 0 false]) 0).2 = true ∧
     lookupA (deletePage (run (initBPM 1) [Op.newP, Op.unpin 0 false]) 0).1.page_table 0
       = none ∧
     deletePage (deletePage (run (initBPM 1) [Op.newP, Op.unpin 0 false]) 0).1 0
       = ((deletePage (run (initBPM 1) [Op.newP, Op.unpin 0 false]) 0).1, true)) :=
  ⟨by decide, by decide, by decide,
   c10_delete_idempotent (run (initBPM 1) [Op.newP, Op.unpin 0 false]) 0 0
     (by decide) (by decide) (by decide)⟩

end Claims

end BusTub
